/-
  Verification of the ATTinyDaemon firmware (version 2.13.7, directory
  src/firmware/ATTinyDaemon) against its natural-language specification.

  The definitions below are a shallow embedding of the firmware's C++ code:
  8/16-bit machine integers are modelled as Nat with explicit `% 256` /
  `% 65536` where overflow matters, interrupt-driven mutation of globals is
  modelled by explicit state passing, and the I2C receive callback is a pure
  function from the received frame and the register file to the new register
  file.  Each definition names the firmware function it embeds.
-/
import Mathlib

namespace ATTinyDaemon

/-- The seven system states of the firmware (enum class State, ATTinyDaemon.h).
    The numeric values are the ones of the C++ enum; the firmware compares
    them numerically to ask for "severity". -/
inductive State : Type
  | running_state
  | unclear_state
  | warn_to_running
  | shutdown_to_running
  | warn_state
  | warn_to_shutdown
  | shutdown_state
deriving DecidableEq, Repr

/-- Numeric value of each state, exactly the values of the C++
    `enum class State : uint8_t` (bit(0) .. bit(5)). -/
def stateVal : State → Nat
  | State.running_state => 0
  | State.unclear_state => 1
  | State.warn_to_running => 2
  | State.shutdown_to_running => 4
  | State.warn_state => 8
  | State.warn_to_shutdown => 16
  | State.shutdown_state => 32

/- Shutdown cause bits (namespace Shutdown_Cause, ATTinyDaemon.h). -/
namespace Shutdown_Cause

def none : Nat := 0
def rpi_initiated : Nat := 2
def ext_voltage : Nat := 4
def button : Nat := 8
def bat_voltage : Nat := 128

end Shutdown_Cause

/- I2C register selector values (enum class Register, ATTinyDaemon.h). -/
namespace Register

def last_access : Nat := 0x01
def bat_voltage : Nat := 0x11
def ext_voltage : Nat := 0x12
def bat_voltage_coefficient : Nat := 0x13
def bat_voltage_constant : Nat := 0x14
def ext_voltage_coefficient : Nat := 0x15
def ext_voltage_constant : Nat := 0x16
def timeout : Nat := 0x21
def primed : Nat := 0x22
def should_shutdown : Nat := 0x23
def force_shutdown : Nat := 0x24
def led_off_mode : Nat := 0x25
def restart_voltage : Nat := 0x31
def warn_voltage : Nat := 0x32
def ups_shutdown_voltage : Nat := 0x33
def temperature : Nat := 0x41
def temperature_coefficient : Nat := 0x42
def temperature_constant : Nat := 0x43
def ups_configuration : Nat := 0x51
def pulse_length : Nat := 0x52
def switch_recovery_delay : Nat := 0x53
def vext_off_is_shutdown : Nat := 0x54
def pulse_length_on : Nat := 0x55
def pulse_length_off : Nat := 0x56
def version : Nat := 0x80
def init_eeprom : Nat := 0xFF

end Register

/-- The voltage level regarded as "external power present" (MIN_POWER_LEVEL). -/
def MIN_POWER_LEVEL : Nat := 4700

/-! ## CRC-8 (handleCRC8, src/unnamed/part_010)

The firmware computes the Dallas/Maxim CRC-8 with polynomial
x^8 + x^5 + x^4 + x^0 (CRC8POLY = 0x31) and initial value 0. -/

def CRC8INIT : Nat := 0x00
def CRC8POLY : Nat := 0x31

/-- One iteration of the `for (i = 0; i < 8; i++)` loop body of
    `crc8_bytecalc`: the pair is the current (data, reg), both uint8_t. -/
def crc8_bitstep (p : Nat × Nat) : Nat × Nat :=
  let data := p.1
  let reg := p.2
  let flag := reg &&& 0x80
  let reg1 := (reg <<< 1) % 256
  let reg2 := if data &&& 0x80 ≠ 0 then reg1 ||| 1 else reg1
  let data1 := (data <<< 1) % 256
  (data1, if flag ≠ 0 then reg2 ^^^ CRC8POLY else reg2)

/-- `crc8_bytecalc(data, reg)`: folds the current byte of data into the
    running CRC register by running the bit loop eight times. -/
def crc8_bytecalc (data reg : Nat) : Nat :=
  (crc8_bitstep^[8] (data, reg)).2

/-- `crc8_message_calc(msg, len)`: CRC of a message, continued for the bit
    length of the polynomial with a zero byte.  The list holds the first
    `len` bytes of the C buffer. -/
def crc8_message_calc (msg : List Nat) : Nat :=
  crc8_bytecalc 0 (msg.foldl (fun reg b => crc8_bytecalc b reg) CRC8INIT)

/-- The CRC check performed by `receive_event` on a received frame:
    the CRC over every byte but the last must equal the last byte. -/
def frame_ok (frame : List Nat) : Bool :=
  crc8_message_calc (frame.take (frame.length - 1)) ==
    frame.getD (frame.length - 1) 0

/-! ## The I2C register file and `receive_event` (handleI2C.ino) -/

/-- The global register variables of the firmware that `receive_event`
    (handleI2C.ino) can read or write, together with the bookkeeping
    globals it touches (`state`, `seconds`, `register_number`,
    `update_eeprom`, `reset_bat_voltage`).  16-bit signed constants are
    stored as their raw 16-bit pattern, exactly as the bus writes them. -/
@[ext] structure Registers : Type where
  timeout : Nat
  primed : Nat
  should_shutdown : Nat
  force_shutdown : Nat
  led_off_mode : Nat
  ups_configuration : Nat
  vext_off_is_shutdown : Nat
  restart_voltage : Nat
  warn_voltage : Nat
  ups_shutdown_voltage : Nat
  bat_voltage_coefficient : Nat
  bat_voltage_constant : Nat
  ext_voltage_coefficient : Nat
  ext_voltage_constant : Nat
  temperature_coefficient : Nat
  temperature_constant : Nat
  pulse_length : Nat
  pulse_length_on : Nat
  pulse_length_off : Nat
  switch_recovery_delay : Nat
  state : State
  seconds : Nat
  register_number : Nat
  update_eeprom : Bool
  reset_bat_voltage : Bool
deriving DecidableEq, Repr

/-- The `bytes == 3` switch of `receive_event`: write an 8-bit register. -/
def write_8bit_register (regs : Registers) (register_number payload : Nat) :
    Registers :=
  if register_number = Register.timeout then
    { regs with timeout := payload, update_eeprom := true }
  else if register_number = Register.primed then
    { regs with primed := payload, update_eeprom := true }
  else if register_number = Register.should_shutdown then
    -- normally simply bit-or the info from the RPi, but allow 0 to reset
    if payload = 0 then { regs with should_shutdown := 0 }
    else { regs with should_shutdown := regs.should_shutdown ||| payload }
  else if register_number = Register.force_shutdown then
    { regs with force_shutdown := payload, update_eeprom := true }
  else if register_number = Register.led_off_mode then
    { regs with led_off_mode := payload, update_eeprom := true }
  else if register_number = Register.ups_configuration then
    { regs with ups_configuration := payload, update_eeprom := true }
  else if register_number = Register.vext_off_is_shutdown then
    { regs with vext_off_is_shutdown := payload,
                ups_configuration :=
                  if payload ≠ 0 then regs.ups_configuration ||| 2
                  else regs.ups_configuration,
                update_eeprom := true }
  else if register_number = Register.init_eeprom then
    if payload ≠ 0 then { regs with update_eeprom := true } else regs
  else regs

/-- The `bytes == 4` switch of `receive_event`: write a 16-bit register.
    `payload = rbuf[1] | (rbuf[2] << 8)`. -/
def write_16bit_register (regs : Registers) (register_number payload : Nat) :
    Registers :=
  if register_number = Register.restart_voltage then
    { regs with restart_voltage := payload, update_eeprom := true }
  else if register_number = Register.warn_voltage then
    { regs with warn_voltage := payload, update_eeprom := true }
  else if register_number = Register.ups_shutdown_voltage then
    { regs with ups_shutdown_voltage := payload, update_eeprom := true }
  else if register_number = Register.bat_voltage_coefficient then
    { regs with bat_voltage_coefficient := payload, update_eeprom := true,
                reset_bat_voltage := true }
  else if register_number = Register.bat_voltage_constant then
    { regs with bat_voltage_constant := payload, update_eeprom := true,
                reset_bat_voltage := true }
  else if register_number = Register.ext_voltage_coefficient then
    { regs with ext_voltage_coefficient := payload, update_eeprom := true }
  else if register_number = Register.ext_voltage_constant then
    { regs with ext_voltage_constant := payload, update_eeprom := true }
  else if register_number = Register.temperature_coefficient then
    { regs with temperature_coefficient := payload, update_eeprom := true }
  else if register_number = Register.temperature_constant then
    { regs with temperature_constant := payload, update_eeprom := true }
  else if register_number = Register.pulse_length then
    { regs with pulse_length := payload, update_eeprom := true }
  else if register_number = Register.pulse_length_on then
    { regs with pulse_length_on := payload, update_eeprom := true }
  else if register_number = Register.pulse_length_off then
    { regs with pulse_length_off := payload, update_eeprom := true }
  else if register_number = Register.switch_recovery_delay then
    { regs with switch_recovery_delay := payload, update_eeprom := true }
  else regs

/-- `receive_event(int bytes)` (handleI2C.ino, lines 227-380): called with
    the received frame.  It first performs the liveness state change
    (`i2c_triggered_state_change`), copies at most BUFFER_SIZE = 8 bytes
    into `rbuf`, latches the register selector from the first byte, checks
    the CRC over all bytes but the last, applies the write switch when the
    CRC matches and the frame has 3 or 4 bytes, and finally resets the
    seconds counter whenever the transaction had more than one byte
    (`bytes != 1`) - whether or not the CRC matched. -/
def receive_event (regs : Registers) (frame : List Nat) : Registers :=
  let bytes := frame.length
  -- i2c_triggered_state_change(): unclear -> running, before anything else
  let regs1 :=
    if regs.state = State.unclear_state then
      { regs with state := State.running_state }
    else regs
  let rbuf := frame.take 8
  let regs2 := { regs1 with register_number := rbuf.getD 0 0 }
  let crc := crc8_message_calc (rbuf.take (bytes - 1))
  let regs3 :=
    if crc = rbuf.getD (bytes - 1) 0 then
      if bytes = 3 then
        write_8bit_register regs2 (rbuf.getD 0 0) (rbuf.getD 1 0)
      else if bytes = 4 then
        write_16bit_register regs2 (rbuf.getD 0 0)
          (rbuf.getD 1 0 ||| (rbuf.getD 2 0 <<< 8))
      else regs2
    else regs2
  if bytes ≠ 1 then { regs3 with seconds := 0 } else regs3

/-! ## Button interrupt (`ISR (PCINT0_vect)`) -/

/-- The button press interrupt handler of the current firmware
    (ATTinyDaemon.ino, lines 135-147).  Input: the shared globals it
    reads; output: the new (primed, should_shutdown). -/
def isr_pcint0 (seconds timeout primed should_shutdown : Nat) : Nat × Nat :=
  if seconds > timeout ∧ primed ≠ 1 then
    (1, Shutdown_Cause.none)
  else
    (primed, should_shutdown ||| Shutdown_Cause.button)

/-- The button press interrupt handler of the legacy firmware 2.8.4
    (src/unnamed/part_007, lines 117-128), which guards the button OR with
    an equality test against exactly `rpi_initiated`. -/
def isr_pcint0_legacy (seconds timeout primed should_shutdown : Nat) :
    Nat × Nat :=
  if seconds > timeout ∧ primed = 0 then
    (1, Shutdown_Cause.none)
  else
    (primed,
     if should_shutdown ≠ Shutdown_Cause.rpi_initiated then
       should_shutdown ||| Shutdown_Cause.button
     else should_shutdown)

/-! ## The power state machine (handleState.ino) -/

/-- The side effects `act_on_state_change` can perform, in the order it
    performs them. -/
inductive Action : Type
  | ups_on
  | ups_off
  | led_off_button_off
  | blink : Nat → Action
  | init_i2c
deriving DecidableEq, Repr

/-- The globals read and written by one `handle_state` cycle
    (handleState.ino), other than the freshly measured voltages and the
    threshold registers, which are passed separately. -/
structure Machine : Type where
  state : State
  should_shutdown : Nat
  seconds : Nat
  primed : Nat
  force_shutdown : Nat
  vext_off_is_shutdown : Nat
  ext_voltage : Nat
  timeout : Nat
deriving DecidableEq, Repr

/-- `voltage_dependent_state_change()` (handleState.ino, lines 154-202)
    minus the embedded `read_voltages()` call: the freshly measured battery
    voltage and the three thresholds are inputs. -/
def voltage_dependent_state_change (m : Machine)
    (bat_voltage ups_shutdown_voltage warn_voltage restart_voltage : Nat) :
    Machine :=
  if bat_voltage ≤ ups_shutdown_voltage then
    if stateVal m.state < stateVal State.warn_to_shutdown then
      { m with state := State.warn_to_shutdown }
    else m
  else if bat_voltage ≤ warn_voltage then
    if stateVal m.state < stateVal State.warn_state then
      { m with state := State.warn_state,
               should_shutdown :=
                 m.should_shutdown ||| Shutdown_Cause.bat_voltage }
    else m
  else if bat_voltage ≤ restart_voltage then
    if m.state = State.unclear_state ∧ m.seconds > m.timeout then
      { m with state := State.warn_state }
    else m
  else -- we are at a safe voltage
    match m.state with
    | State.shutdown_state => { m with state := State.shutdown_to_running }
    | State.warn_to_shutdown => { m with state := State.shutdown_to_running }
    | State.warn_state => { m with state := State.warn_to_running }
    | State.unclear_state => { m with state := State.running_state }
    | _ => m

/-- `act_on_state_change()` (handleState.ino, lines 81-148).  Returns the
    new globals and the list of I/O actions, in execution order. -/
def act_on_state_change (m : Machine) : Machine × List Action :=
  -- warn_to_shutdown: optionally cut power, then move to shutdown_state
  let s1 :=
    if m.state = State.warn_to_shutdown then
      ({ m with state := State.shutdown_state },
       if m.primed = 1 then
         if m.force_shutdown ≠ 0 then [Action.ups_off] else []
       else [])
    else (m, ([] : List Action))
  let m1 := s1.1
  -- the if / else-if chain over the (possibly updated) state
  let s2 :=
    if m1.state = State.shutdown_state then
      (m1, s1.2 ++ [Action.led_off_button_off])
    else if m1.state = State.warn_state then
      ({ m1 with seconds := 0 }, s1.2)
    else if m1.state = State.shutdown_to_running then
      ({ m1 with seconds := 0, state := State.running_state,
                 should_shutdown := Shutdown_Cause.none },
       s1.2 ++ (if m1.primed = 1 then [Action.ups_on] else []))
    else if m1.state = State.warn_to_running then
      ({ m1 with state := State.running_state,
                 should_shutdown := Shutdown_Cause.none }, s1.2)
    else (m1, s1.2)
  let m2 := s2.1
  -- the running-state watchdog-for-the-host behaviour
  if m2.state = State.running_state then
    let should_restart :=
      if m2.vext_off_is_shutdown ≠ 0 then
        decide (m2.ext_voltage < MIN_POWER_LEVEL)
      else decide (m2.seconds > m2.timeout)
    let reset_i2c_bus :=
      if m2.vext_off_is_shutdown ≠ 0 then false
      else decide (m2.seconds > m2.timeout / 2)
    let acts := if reset_i2c_bus then s2.2 ++ [Action.init_i2c] else s2.2
    if should_restart then
      if m2.primed = 1 then
        -- blink_led(10, ...); restart_raspberry() clears should_shutdown,
        -- pushes the switch off then on; then reset_counter_Safe()
        ({ m2 with should_shutdown := Shutdown_Cause.none, seconds := 0 },
         acts ++ [Action.blink 10, Action.ups_off, Action.ups_on])
      else ({ m2 with seconds := 0 }, acts)
    else (m2, acts)
  else (m2, s2.2)

/-! ## Acquisition (src/unnamed/part_009) -/

/-- The accumulation loop of `read_adc` over the conversions with `i != 0`:
    sums the values and tracks the highest and lowest value seen. -/
def adc_accumulate : List Nat → Nat × Nat × Nat → Nat × Nat × Nat
  | [], acc => acc
  | current_val :: rest, (result, highest_val, lowest_val) =>
      adc_accumulate rest
        (result + current_val,
         if current_val > highest_val then current_val else highest_val,
         if current_val < lowest_val then current_val else lowest_val)

/-- `read_adc(num_measurements)` (src/unnamed/part_009, lines 155-187).
    The ADC performs `num_measurements + 1` conversions, given here as the
    list `conversions`; the `if (i != 0)` in the loop discards the first
    one.  `lowest_val` starts at USHRT_MAX = 65535. -/
def read_adc (num_measurements : Nat) (conversions : List Nat) : Nat :=
  let acc :=
    match conversions with
    | [] => (0, 0, 65535)
    | _first :: rest => adc_accumulate rest (0, 0, 65535)
  let result := acc.1
  let highest_val := acc.2.1
  let lowest_val := acc.2.2
  if num_measurements > 3 then
    (result - highest_val - lowest_val) / (num_measurements - 2)
  else
    result / num_measurements

/-- The battery-voltage publication step of `read_voltages()`
    (src/unnamed/part_009, lines 91-146): the reset clamp performed in the
    atomic block, then the one-pole smoothing against the previous
    published value.  `temp_bat_voltage` is the freshly corrected
    measurement, held in a `uint32_t`.  On the ATTiny target `int` is 16
    bits wide, so in `temp_bat_voltage + bat_voltage * 9` (line 137) the
    product `bat_voltage * 9` is computed in 16-bit unsigned arithmetic
    and wraps modulo 2^16 before the 32-bit addition, which itself wraps
    modulo 2^32; the final store into the 16-bit `bat_voltage` register
    (line 143) truncates modulo 2^16.  The result is the new
    (bat_voltage, reset_bat_voltage). -/
def read_voltages_bat_update (bat_voltage : Nat) (reset_bat_voltage : Bool)
    (temp_bat_voltage : Nat) : Nat × Bool :=
  let cleared := if reset_bat_voltage then 0 else bat_voltage
  let reset_after := if reset_bat_voltage then false else reset_bat_voltage
  let blended :=
    if cleared ≠ 0 then
      (temp_bat_voltage + (cleared * 9) % 65536) % 4294967296 / 10
    else temp_bat_voltage
  (blended % 65536, reset_after)

/-- The de-escalation table as the specification words it (spec 4.2):
    Shutdown / WarnToShutdown → ShutdownRecovering, Warn → WarnRecovering,
    Uncertain → Running, every other state unchanged.  Stated separately
    from the source-derived `voltage_dependent_state_change` so the two
    can be compared. -/
def de_escalate_spec : State → State
  | State.shutdown_state => State.shutdown_to_running
  | State.warn_to_shutdown => State.shutdown_to_running
  | State.warn_state => State.warn_to_running
  | State.unclear_state => State.running_state
  | s => s

/-- The 8-bit registers whose bus writes are persisted to the EEPROM
    (each sets `update_eeprom` in the `bytes == 3` switch). -/
def persisted_8bit_registers : List Nat :=
  [Register.timeout, Register.primed, Register.force_shutdown,
   Register.led_off_mode, Register.ups_configuration,
   Register.vext_off_is_shutdown]

/-- The 16-bit registers whose bus writes are persisted to the EEPROM
    (each sets `update_eeprom` in the `bytes == 4` switch). -/
def persisted_16bit_registers : List Nat :=
  [Register.restart_voltage, Register.warn_voltage,
   Register.ups_shutdown_voltage, Register.bat_voltage_coefficient,
   Register.bat_voltage_constant, Register.ext_voltage_coefficient,
   Register.ext_voltage_constant, Register.temperature_coefficient,
   Register.temperature_constant, Register.pulse_length,
   Register.pulse_length_on, Register.pulse_length_off,
   Register.switch_recovery_delay]

/-! ## Helper lemmas -/

lemma write_8bit_register_state (regs : Registers) (n p : Nat) :
    (write_8bit_register regs n p).state = regs.state := by
  unfold write_8bit_register
  simp only [apply_ite Registers.state, ite_self]

lemma write_8bit_register_seconds (regs : Registers) (n p : Nat) :
    (write_8bit_register regs n p).seconds = regs.seconds := by
  unfold write_8bit_register
  simp only [apply_ite Registers.seconds, ite_self]

lemma write_16bit_register_state (regs : Registers) (n p : Nat) :
    (write_16bit_register regs n p).state = regs.state := by
  unfold write_16bit_register
  simp only [apply_ite Registers.state, ite_self]

lemma write_16bit_register_seconds (regs : Registers) (n p : Nat) :
    (write_16bit_register regs n p).seconds = regs.seconds := by
  unfold write_16bit_register
  simp only [apply_ite Registers.seconds, ite_self]

/-- `receive_event` on a 3-byte frame, with the list bookkeeping computed. -/
lemma receive_event_three (regs : Registers) (a b c : Nat) :
    receive_event regs [a, b, c] =
      (let regs1 :=
        if regs.state = State.unclear_state then
          { regs with state := State.running_state }
        else regs
       let regs2 := { regs1 with register_number := a }
       let regs3 :=
        if crc8_message_calc [a, b] = c then write_8bit_register regs2 a b
        else regs2
       { regs3 with seconds := 0 }) := by
  simp [receive_event]

/-- `receive_event` on a 4-byte frame, with the list bookkeeping computed. -/
lemma receive_event_four (regs : Registers) (a b c d : Nat) :
    receive_event regs [a, b, c, d] =
      (let regs1 :=
        if regs.state = State.unclear_state then
          { regs with state := State.running_state }
        else regs
       let regs2 := { regs1 with register_number := a }
       let regs3 :=
        if crc8_message_calc [a, b, c] = d then
          write_16bit_register regs2 a (b ||| (c <<< 8))
        else regs2
       { regs3 with seconds := 0 }) := by
  simp [receive_event]

/-- A list of length four is a four-element list. -/
lemma length_eq_four_exists {l : List Nat} (h : l.length = 4) :
    ∃ a b c d, l = [a, b, c, d] := by
  rcases l with _ | ⟨a, _ | ⟨b, _ | ⟨c, _ | ⟨d, _ | ⟨e, t⟩⟩⟩⟩⟩ <;>
    simp_all

/-! ## Claim theorems -/

/-- C10: for every received transaction, the `Uncertain → Running`
    liveness transition of `receive_event` is applied whether or not the
    CRC check succeeds (it is performed first, before the CRC is even
    computed), and the seconds counter is reset exactly when the
    transaction carried more than one byte — again independent of the CRC
    result — while a 1-byte register-select transaction leaves the counter
    untouched in the receive path. -/
theorem C10_liveness_before_crc_and_counter_reset
    (regs : Registers) (frame : List Nat) :
    ((receive_event regs frame).state =
       if regs.state = State.unclear_state then State.running_state
       else regs.state) ∧
    (1 < frame.length → (receive_event regs frame).seconds = 0) ∧
    (frame.length = 1 → (receive_event regs frame).seconds = regs.seconds) := by
  refine ⟨?_, ?_, ?_⟩
  · simp only [receive_event, apply_ite Registers.state,
      write_8bit_register_state, write_16bit_register_state, ite_self]
  · intro h
    have hne : frame.length ≠ 1 := by omega
    simp only [receive_event, hne, ne_eq, not_false_eq_true, if_true]
  · intro h
    simp only [receive_event, h, ne_eq, not_true_eq_false, if_false,
      apply_ite Registers.seconds, write_8bit_register_seconds,
      write_16bit_register_seconds, ite_self]

/-- C4: a received write transaction of 3 or 4 bytes whose final byte does
    not match the CRC-8 of the preceding bytes modifies no register
    variable: `receive_event` only performs the liveness state update,
    latches the register selector, and resets the seconds counter — every
    writable register plus `update_eeprom` and `reset_bat_voltage` keep
    their previous values, no error is signalled (the handler has no error
    output), and nothing further is raised to the state machine. -/
theorem C4_crc_mismatch_discards_write
    (regs : Registers) (frame : List Nat)
    (hlen : frame.length = 3 ∨ frame.length = 4)
    (hcrc : crc8_message_calc (frame.take (frame.length - 1)) ≠
            frame.getD (frame.length - 1) 0) :
    receive_event regs frame =
      { regs with
          state := if regs.state = State.unclear_state then
                     State.running_state
                   else regs.state,
          register_number := frame.getD 0 0,
          seconds := 0 } := by
  rcases hlen with h3 | h4
  · obtain ⟨a, b, c, rfl⟩ := List.length_eq_three.1 h3
    simp only [List.take, List.length_cons, List.length_nil, List.getD,
      List.getElem?_cons_succ, List.getElem?_cons_zero] at hcrc
    rw [receive_event_three]
    by_cases h1 : regs.state = State.unclear_state <;>
      simp_all [List.getD]
  · obtain ⟨a, b, c, d, rfl⟩ := length_eq_four_exists h4
    simp only [List.take, List.length_cons, List.length_nil, List.getD,
      List.getElem?_cons_succ, List.getElem?_cons_zero] at hcrc
    rw [receive_event_four]
    by_cases h1 : regs.state = State.unclear_state <;>
      simp_all [List.getD]

/-- C4 witness: a concrete corrupted 3-byte write (the CRC of
    `[0x21, 61]` is not 144) leaves the register file untouched apart from
    the liveness transition, the selector latch and the counter reset. -/
theorem C4_crc_mismatch_discards_write_witness :
    receive_event
      ⟨60, 0, 0, 0, 0, 0, 0, 3900, 3400, 3200, 1000, 0, 2000, 700, 1000,
       65266, 200, 0, 0, 1000, State.unclear_state, 55, 0, false, false⟩
      [33, 61, 144] =
      { (⟨60, 0, 0, 0, 0, 0, 0, 3900, 3400, 3200, 1000, 0, 2000, 700, 1000,
          65266, 200, 0, 0, 1000, State.unclear_state, 55, 0, false, false⟩ :
          Registers) with
          state := State.running_state, register_number := 33,
          seconds := 0 } := by
  have h := C4_crc_mismatch_discards_write
    ⟨60, 0, 0, 0, 0, 0, 0, 3900, 3400, 3200, 1000, 0, 2000, 700, 1000,
     65266, 200, 0, 0, 1000, State.unclear_state, 55, 0, false, false⟩
    [33, 61, 144] (Or.inl rfl) (by decide)
  simpa using h

/-- C10 witness: a corrupted 3-byte transaction still performs the
    `Uncertain → Running` transition and resets the counter, while a
    1-byte register-select transaction leaves the counter at 55. -/
theorem C10_liveness_before_crc_and_counter_reset_witness :
    ((receive_event
        ⟨60, 0, 0, 0, 0, 0, 0, 3900, 3400, 3200, 1000, 0, 2000, 700, 1000,
         65266, 200, 0, 0, 1000, State.unclear_state, 55, 0, false, false⟩
        [33, 61, 144]).state = State.running_state ∧
     (receive_event
        ⟨60, 0, 0, 0, 0, 0, 0, 3900, 3400, 3200, 1000, 0, 2000, 700, 1000,
         65266, 200, 0, 0, 1000, State.unclear_state, 55, 0, false, false⟩
        [33, 61, 144]).seconds = 0) ∧
    (receive_event
        ⟨60, 0, 0, 0, 0, 0, 0, 3900, 3400, 3200, 1000, 0, 2000, 700, 1000,
         65266, 200, 0, 0, 1000, State.unclear_state, 55, 0, false, false⟩
        [1]).seconds = 55 := by
  refine ⟨⟨?_, ?_⟩, ?_⟩
  · have h := (C10_liveness_before_crc_and_counter_reset
      ⟨60, 0, 0, 0, 0, 0, 0, 3900, 3400, 3200, 1000, 0, 2000, 700, 1000,
       65266, 200, 0, 0, 1000, State.unclear_state, 55, 0, false, false⟩
      [33, 61, 144]).1
    simpa using h
  · exact (C10_liveness_before_crc_and_counter_reset
      ⟨60, 0, 0, 0, 0, 0, 0, 3900, 3400, 3200, 1000, 0, 2000, 700, 1000,
       65266, 200, 0, 0, 1000, State.unclear_state, 55, 0, false, false⟩
      [33, 61, 144]).2.1 (by decide)
  · exact (C10_liveness_before_crc_and_counter_reset
      ⟨60, 0, 0, 0, 0, 0, 0, 3900, 3400, 3200, 1000, 0, 2000, 700, 1000,
       65266, 200, 0, 0, 1000, State.unclear_state, 55, 0, false, false⟩
      [1]).2.2 rfl

/-- C5: a CRC-valid write to the `should_shutdown` register clears the
    shutdown-cause bitmask when the payload is zero and ORs any nonzero
    payload into the existing bitmask; in particular writing the button
    bit and then the low-battery bit without an intervening clear yields
    the OR of both on top of the pre-existing causes. -/
theorem C5_should_shutdown_clear_or_accumulate (regs : Registers) (v : Nat) :
    ((receive_event regs
        [Register.should_shutdown, v,
         crc8_message_calc [Register.should_shutdown, v]]).should_shutdown =
      if v = 0 then Shutdown_Cause.none
      else regs.should_shutdown ||| v) ∧
    ((receive_event (receive_event regs
        [Register.should_shutdown, Shutdown_Cause.button,
         crc8_message_calc [Register.should_shutdown,
           Shutdown_Cause.button]])
        [Register.should_shutdown, Shutdown_Cause.bat_voltage,
         crc8_message_calc [Register.should_shutdown,
           Shutdown_Cause.bat_voltage]]).should_shutdown =
      (regs.should_shutdown ||| Shutdown_Cause.button) |||
        Shutdown_Cause.bat_voltage) := by
  have key : ∀ (r : Registers) (w : Nat),
      (receive_event r
        [Register.should_shutdown, w,
         crc8_message_calc [Register.should_shutdown, w]]).should_shutdown =
      if w = 0 then Shutdown_Cause.none else r.should_shutdown ||| w := by
    intro r w
    rw [receive_event_three]
    by_cases hw : w = 0 <;>
      simp [hw, write_8bit_register, Register.timeout, Register.primed,
        Register.should_shutdown, Shutdown_Cause.none,
        apply_ite Registers.should_shutdown, ite_self]
  refine ⟨key regs v, ?_⟩
  rw [key, key]
  simp [Shutdown_Cause.button, Shutdown_Cause.bat_voltage]

/-- C9 counterexample to the claim that an idempotent configuration write
    does not mark the store dirty: with `timeout` already 60 and the dirty
    flag clear, the CRC-valid frame `[0x21, 60, 144]` (which re-writes the
    value 60 that the register already holds) sets `update_eeprom`. -/
theorem C9_counterexample_idempotent_write_sets_dirty :
    frame_ok [33, 60, 144] = true ∧
    (⟨60, 0, 0, 0, 0, 0, 0, 3900, 3400, 3200, 1000, 0, 2000, 700, 1000,
       65266, 200, 0, 0, 1000, State.running_state, 55, 0, false, false⟩ :
       Registers).timeout = 60 ∧
    (⟨60, 0, 0, 0, 0, 0, 0, 3900, 3400, 3200, 1000, 0, 2000, 700, 1000,
       65266, 200, 0, 0, 1000, State.running_state, 55, 0, false, false⟩ :
       Registers).update_eeprom = false ∧
    (receive_event
      ⟨60, 0, 0, 0, 0, 0, 0, 3900, 3400, 3200, 1000, 0, 2000, 700, 1000,
       65266, 200, 0, 0, 1000, State.running_state, 55, 0, false, false⟩
      [33, 60, 144]).update_eeprom = true := by
  decide

/-- C9 (amended): every CRC-valid bus write to a persisted configuration
    register sets the store's dirty flag `update_eeprom`, regardless of
    whether the payload equals the register's current value; the
    idempotence the spec intends lives one layer lower, in the
    write-if-changed EEPROM update performed at flush time. -/
theorem C9_write_always_sets_dirty (regs : Registers) (rn v w : Nat) :
    (rn ∈ persisted_8bit_registers →
       (receive_event regs
          [rn, v, crc8_message_calc [rn, v]]).update_eeprom = true) ∧
    (rn ∈ persisted_16bit_registers →
       (receive_event regs
          [rn, v, w, crc8_message_calc [rn, v, w]]).update_eeprom = true) := by
  constructor
  · intro h
    rw [receive_event_three]
    fin_cases h <;>
      simp [write_8bit_register, Register.timeout, Register.primed,
        Register.should_shutdown, Register.force_shutdown,
        Register.led_off_mode, Register.ups_configuration,
        Register.vext_off_is_shutdown, Register.init_eeprom,
        apply_ite Registers.update_eeprom, ite_self]
  · intro h
    rw [receive_event_four]
    fin_cases h <;>
      simp [write_16bit_register, Register.restart_voltage,
        Register.warn_voltage, Register.ups_shutdown_voltage,
        Register.bat_voltage_coefficient, Register.bat_voltage_constant,
        Register.ext_voltage_coefficient, Register.ext_voltage_constant,
        Register.temperature_coefficient, Register.temperature_constant,
        Register.pulse_length, Register.pulse_length_on,
        Register.pulse_length_off, Register.switch_recovery_delay,
        apply_ite Registers.update_eeprom, ite_self]

/-- C9 witness: the amended statement at the `timeout` register (8-bit)
    and the `restart_voltage` register (16-bit), with the payload equal to
    the current value in both cases. -/
theorem C9_write_always_sets_dirty_witness :
    (receive_event
      ⟨60, 0, 0, 0, 0, 0, 0, 3900, 3400, 3200, 1000, 0, 2000, 700, 1000,
       65266, 200, 0, 0, 1000, State.running_state, 55, 0, false, false⟩
      [33, 60, crc8_message_calc [33, 60]]).update_eeprom = true ∧
    (receive_event
      ⟨60, 0, 0, 0, 0, 0, 0, 3900, 3400, 3200, 1000, 0, 2000, 700, 1000,
       65266, 200, 0, 0, 1000, State.running_state, 55, 0, false, false⟩
      [49, 60, 15, crc8_message_calc [49, 60, 15]]).update_eeprom = true := by
  constructor
  · exact (C9_write_always_sets_dirty
      ⟨60, 0, 0, 0, 0, 0, 0, 3900, 3400, 3200, 1000, 0, 2000, 700, 1000,
       65266, 200, 0, 0, 1000, State.running_state, 55, 0, false, false⟩
      33 60 0).1 (by decide)
  · exact (C9_write_always_sets_dirty
      ⟨60, 0, 0, 0, 0, 0, 0, 3900, 3400, 3200, 1000, 0, 2000, 700, 1000,
       65266, 200, 0, 0, 1000, State.running_state, 55, 0, false, false⟩
      49 60 15).2 (by decide)

/-- C8 counterexample: the claim's universal smoothing formula
    `(fresh + 9 * previous) / 10` fails on the code once the previous
    published value reaches 7282, because the AVR computes
    `bat_voltage * 9` in 16-bit unsigned arithmetic: at previous value
    10000 and fresh value 4000 the product 90000 wraps to 24464 and the
    firmware publishes 2846, not (4000 + 9 * 10000) / 10 = 9400. -/
theorem C8_counterexample_smoothing_wraps_16bit :
    (read_voltages_bat_update 10000 false 4000).1 = 2846 ∧
    (4000 + 9 * 10000) / 10 = 9400 ∧
    (read_voltages_bat_update 10000 false 4000).1 ≠
      (4000 + 9 * 10000) / 10 := by
  decide

/-- C8 (amended): the published battery voltage is the one-pole smoothing
    `(fresh + 9 * previous) / 10` whenever a previous nonzero smoothed
    value exists and no reset is pending, **provided the AVR's 16/32-bit
    unsigned arithmetic does not wrap**: exactly, the product
    `9 * previous` is taken modulo 2^16 (so the clean formula needs
    `previous ≤ 7281`), the 32-bit sum modulo 2^32, and the stored result
    modulo 2^16; a CRC-valid bus write to the battery calibration
    coefficient or constant sets `reset_bat_voltage`, and with the reset
    pending the next cycle publishes the freshly corrected (16-bit)
    value unblended and clears the pending reset. -/
theorem C8_bat_voltage_smoothing_and_reset
    (prev fresh : Nat) (regs : Registers) (v w : Nat) :
    (prev ≠ 0 → prev ≤ 7281 → fresh + 9 * prev < 4294967296 →
       (fresh + 9 * prev) / 10 < 65536 →
       (read_voltages_bat_update prev false fresh).1 =
         (fresh + 9 * prev) / 10) ∧
    (prev ≠ 0 →
       (read_voltages_bat_update prev false fresh).1 =
         (fresh + (9 * prev) % 65536) % 4294967296 / 10 % 65536) ∧
    (fresh < 65536 → (read_voltages_bat_update prev true fresh).1 = fresh) ∧
    ((read_voltages_bat_update prev true fresh).2 = false) ∧
    ((receive_event regs
        [Register.bat_voltage_coefficient, v, w,
         crc8_message_calc [Register.bat_voltage_coefficient, v, w]]
      ).reset_bat_voltage = true) ∧
    ((receive_event regs
        [Register.bat_voltage_constant, v, w,
         crc8_message_calc [Register.bat_voltage_constant, v, w]]
      ).reset_bat_voltage = true) := by
  refine ⟨?_, ?_, ?_, ?_, ?_, ?_⟩
  · intro h h1 h2 h3
    have e1 : (prev * 9) % 65536 = prev * 9 :=
      Nat.mod_eq_of_lt (by omega)
    have e2 : (fresh + prev * 9) % 4294967296 = fresh + prev * 9 :=
      Nat.mod_eq_of_lt (by omega)
    have e3 : (fresh + prev * 9) / 10 < 65536 := by
      rw [Nat.mul_comm]
      exact h3
    simp only [read_voltages_bat_update, Bool.false_eq_true, if_false,
      if_neg, h, ne_eq, not_false_eq_true, if_true, e1, e2,
      Nat.mod_eq_of_lt e3, Nat.mul_comm]
  · intro h
    simp only [read_voltages_bat_update, Bool.false_eq_true, if_false,
      if_neg, h, ne_eq, not_false_eq_true, if_true, Nat.mul_comm]
  · intro hf
    simp [read_voltages_bat_update, Nat.mod_eq_of_lt hf]
  · simp [read_voltages_bat_update]
  · rw [receive_event_four]
    simp [write_16bit_register, Register.restart_voltage,
      Register.warn_voltage, Register.ups_shutdown_voltage,
      Register.bat_voltage_coefficient,
      apply_ite Registers.reset_bat_voltage, ite_self]
  · rw [receive_event_four]
    simp [write_16bit_register, Register.restart_voltage,
      Register.warn_voltage, Register.ups_shutdown_voltage,
      Register.bat_voltage_coefficient, Register.bat_voltage_constant,
      apply_ite Registers.reset_bat_voltage, ite_self]

/-- C8 witness: smoothing at previous value 3800 (below the 16-bit wrap
    threshold) and fresh value 3700 gives (3700 + 9 * 3800) / 10 = 3790,
    a pending reset publishes 3700 unblended, and a concrete calibration
    write raises the reset flag. -/
theorem C8_bat_voltage_smoothing_and_reset_witness :
    (read_voltages_bat_update 3800 false 3700).1 = (3700 + 9 * 3800) / 10 ∧
    (read_voltages_bat_update 3800 true 3700).1 = 3700 ∧
    (receive_event
      ⟨60, 0, 0, 0, 0, 0, 0, 3900, 3400, 3200, 1000, 0, 2000, 700, 1000,
       65266, 200, 0, 0, 1000, State.running_state, 55, 0, false, false⟩
      [19, 16, 39, crc8_message_calc [19, 16, 39]]).reset_bat_voltage =
      true := by
  refine ⟨?_, ?_, ?_⟩
  · exact (C8_bat_voltage_smoothing_and_reset 3800 3700
      ⟨60, 0, 0, 0, 0, 0, 0, 3900, 3400, 3200, 1000, 0, 2000, 700, 1000,
       65266, 200, 0, 0, 1000, State.running_state, 55, 0, false, false⟩
      16 39).1 (by decide) (by decide) (by decide) (by decide)
  · exact (C8_bat_voltage_smoothing_and_reset 3800 3700
      ⟨60, 0, 0, 0, 0, 0, 0, 3900, 3400, 3200, 1000, 0, 2000, 700, 1000,
       65266, 200, 0, 0, 1000, State.running_state, 55, 0, false, false⟩
      16 39).2.2.1 (by decide)
  · exact (C8_bat_voltage_smoothing_and_reset 3800 3700
      ⟨60, 0, 0, 0, 0, 0, 0, 3900, 3400, 3200, 1000, 0, 2000, 700, 1000,
       65266, 200, 0, 0, 1000, State.running_state, 55, 0, false, false⟩
      16 39).2.2.2.2.1

/-- C6 counterexample: with the liveness window not yet expired and a
    host-initiated shutdown in flight (`should_shutdown = rpi_initiated`),
    the current firmware's button ISR still ORs the button bit into the
    bitmask instead of leaving it unchanged; the legacy 2.8.4 ISR likewise
    modifies the bitmask whenever `rpi_initiated` is set together with any
    other cause bit. -/
theorem C6_counterexample_button_or_despite_rpi_initiated :
    (isr_pcint0 10 60 1 Shutdown_Cause.rpi_initiated).2 ≠
      Shutdown_Cause.rpi_initiated ∧
    (isr_pcint0 10 60 1 Shutdown_Cause.rpi_initiated).2 =
      (Shutdown_Cause.rpi_initiated ||| Shutdown_Cause.button) ∧
    (isr_pcint0_legacy 10 60 1
        (Shutdown_Cause.rpi_initiated ||| Shutdown_Cause.ext_voltage)).2 ≠
      (Shutdown_Cause.rpi_initiated ||| Shutdown_Cause.ext_voltage) := by
  decide

/-- C6 (amended): in the button ISR, if the liveness counter has exceeded
    the timeout and the device is not primed, the press primes the device
    and clears the shutdown causes; otherwise the current firmware ORs the
    button bit into the bitmask unconditionally — the `rpi_initiated`
    guard of the legacy 2.8.4 ISR was an equality test against exactly
    `rpi_initiated` (skipping the OR only in that one case) and was
    dropped from the current firmware altogether. -/
theorem C6_button_isr_behavior
    (seconds timeout primed should_shutdown : Nat) :
    (seconds > timeout ∧ primed ≠ 1 →
       isr_pcint0 seconds timeout primed should_shutdown =
         (1, Shutdown_Cause.none)) ∧
    (¬(seconds > timeout ∧ primed ≠ 1) →
       isr_pcint0 seconds timeout primed should_shutdown =
         (primed, should_shutdown ||| Shutdown_Cause.button)) ∧
    (¬(seconds > timeout ∧ primed = 0) →
       should_shutdown = Shutdown_Cause.rpi_initiated →
       isr_pcint0_legacy seconds timeout primed should_shutdown =
         (primed, should_shutdown)) ∧
    (¬(seconds > timeout ∧ primed = 0) →
       should_shutdown ≠ Shutdown_Cause.rpi_initiated →
       isr_pcint0_legacy seconds timeout primed should_shutdown =
         (primed, should_shutdown ||| Shutdown_Cause.button)) := by
  refine ⟨?_, ?_, ?_, ?_⟩
  · intro h
    simp [isr_pcint0, h]
  · intro h
    simp [isr_pcint0, h]
  · intro h hss
    simp [isr_pcint0_legacy, h, hss]
  · intro h hss
    simp [isr_pcint0_legacy, h, hss]

/-- C6 witness: the amended behaviour at concrete inputs — an expired
    window with an unprimed device primes and clears; within the window
    the button bit is ORed on top of `rpi_initiated`; the legacy ISR
    leaves exactly `rpi_initiated` untouched but ORs on top of
    `rpi_initiated ||| ext_voltage`. -/
theorem C6_button_isr_behavior_witness :
    isr_pcint0 100 60 0 10 = (1, Shutdown_Cause.none) ∧
    isr_pcint0 10 60 1 2 = (1, 2 ||| Shutdown_Cause.button) ∧
    isr_pcint0_legacy 10 60 1 2 = (1, 2) ∧
    isr_pcint0_legacy 10 60 1 6 = (1, 6 ||| Shutdown_Cause.button) := by
  refine ⟨?_, ?_, ?_, ?_⟩
  · exact (C6_button_isr_behavior 100 60 0 10).1 (by decide)
  · exact (C6_button_isr_behavior 10 60 1 2).2.1 (by decide)
  · exact (C6_button_isr_behavior 10 60 1 2).2.2.1 (by decide) (by decide)
  · exact (C6_button_isr_behavior 10 60 1 6).2.2.2 (by decide) (by decide)


/-- The accumulation loop of `read_adc` computes the running sum together
    with the fold of `max` and `min` over the processed samples. -/
lemma adc_accumulate_eq (s : List Nat) :
    ∀ r h l : Nat,
      adc_accumulate s (r, h, l) =
        (r + s.sum, s.foldl max h, s.foldl min l) := by
  induction s with
  | nil => intro r h l; simp [adc_accumulate]
  | cons x xs ih =>
      intro r h l
      have hmax : (if x > h then x else h) = max h x := by
        rw [max_def]
        split_ifs <;> omega
      have hmin : (if x < l then x else l) = min l x := by
        rw [min_def]
        split_ifs <;> omega
      simp only [adc_accumulate, hmax, hmin, ih, List.sum_cons,
        List.foldl_cons]
      rw [Nat.add_assoc]

/-- The fold of `max` dominates the seed and every list element. -/
lemma foldl_max_bounds (s : List Nat) :
    ∀ a : Nat, a ≤ s.foldl max a ∧ ∀ x ∈ s, x ≤ s.foldl max a := by
  induction s with
  | nil => intro a; simp
  | cons y ys ih =>
      intro a
      refine ⟨le_trans (le_max_left a y) (ih (max a y)).1, ?_⟩
      intro x hx
      rcases List.mem_cons.1 hx with rfl | hx
      · exact le_trans (le_max_right a x) (ih (max a x)).1
      · exact (ih (max a y)).2 x hx

/-- The fold of `max` is an element of the list or the seed itself. -/
lemma foldl_max_mem (s : List Nat) :
    ∀ a : Nat, s.foldl max a ∈ s ∨ s.foldl max a = a := by
  induction s with
  | nil => intro a; simp
  | cons y ys ih =>
      intro a
      rcases ih (max a y) with hm | hm
      · exact Or.inl (List.mem_cons_of_mem y hm)
      · rcases Nat.le_total a y with hc | hc
        · refine Or.inl ?_
          rw [List.foldl_cons, hm, max_eq_right hc]
          exact List.mem_cons_self y ys
        · refine Or.inr ?_
          rw [List.foldl_cons, hm, max_eq_left hc]

/-- The fold of `min` is below the seed and every list element. -/
lemma foldl_min_bounds (s : List Nat) :
    ∀ a : Nat, s.foldl min a ≤ a ∧ ∀ x ∈ s, s.foldl min a ≤ x := by
  induction s with
  | nil => intro a; simp
  | cons y ys ih =>
      intro a
      refine ⟨le_trans (ih (min a y)).1 (min_le_left a y), ?_⟩
      intro x hx
      rcases List.mem_cons.1 hx with rfl | hx
      · exact le_trans (ih (min a x)).1 (min_le_right a x)
      · exact (ih (min a y)).2 x hx

/-- The fold of `min` is an element of the list or the seed itself. -/
lemma foldl_min_mem (s : List Nat) :
    ∀ a : Nat, s.foldl min a ∈ s ∨ s.foldl min a = a := by
  induction s with
  | nil => intro a; simp
  | cons y ys ih =>
      intro a
      rcases ih (min a y) with hm | hm
      · exact Or.inl (List.mem_cons_of_mem y hm)
      · rcases Nat.le_total a y with hc | hc
        · refine Or.inr ?_
          rw [List.foldl_cons, hm, min_eq_left hc]
        · refine Or.inl ?_
          rw [List.foldl_cons, hm, min_eq_right hc]
          exact List.mem_cons_self y ys

/-- C7: `read_adc` configured for N samples consumes N+1 conversions and
    ignores the first (settling) one; when N ≥ 4 it discards one instance
    of the maximum and one of the minimum of the N remaining samples and
    averages the other N − 2 with integer division, otherwise it averages
    all N; in particular for N = 5 and samples {10, 12, 11, 100, 9} the
    result is the average of {10, 12, 11}, namely 11. -/
theorem C7_read_adc_trimmed_average (first : Nat) (s : List Nat) (N : Nat)
    (hlen : s.length = N) (hN : 1 ≤ N) (hbound : ∀ x ∈ s, x ≤ 65535) :
    (4 ≤ N →
       ∃ hi lo, hi ∈ s ∧ lo ∈ s ∧ (∀ x ∈ s, x ≤ hi) ∧ (∀ x ∈ s, lo ≤ x) ∧
         read_adc N (first :: s) = (s.sum - hi - lo) / (N - 2)) ∧
    (N < 4 → read_adc N (first :: s) = s.sum / N) ∧
    read_adc 5 [0, 10, 12, 11, 100, 9] = 11 := by
  have hne : ∃ x, x ∈ s := by
    cases s with
    | nil => simp at hlen; omega
    | cons y ys => exact ⟨y, List.mem_cons_self y ys⟩
  have hacc : adc_accumulate s (0, 0, 65535) =
      (s.sum, s.foldl max 0, s.foldl min 65535) := by
    simpa using adc_accumulate_eq s 0 0 65535
  refine ⟨?_, ?_, by decide⟩
  · intro h4
    refine ⟨s.foldl max 0, s.foldl min 65535, ?_, ?_, ?_, ?_, ?_⟩
    · rcases foldl_max_mem s 0 with hm | hm
      · exact hm
      · obtain ⟨x, hx⟩ := hne
        have hxle := ((foldl_max_bounds s 0).2 x hx).trans_eq hm
        have : x = 0 := Nat.le_zero.mp hxle
        rw [hm]
        exact this ▸ hx
    · rcases foldl_min_mem s 65535 with hm | hm
      · exact hm
      · obtain ⟨x, hx⟩ := hne
        have hxge := hm ▸ ((foldl_min_bounds s 65535).2 x hx)
        have : x = 65535 := le_antisymm (hbound x hx) hxge
        rw [hm]
        exact this ▸ hx
    · exact (foldl_max_bounds s 0).2
    · exact (foldl_min_bounds s 65535).2
    · simp only [read_adc, hacc]
      rw [if_pos (by omega)]
  · intro h4
    simp only [read_adc, hacc]
    rw [if_neg (by omega)]

/-- C7 witness: the theorem at the specification's own example,
    N = 5 samples {10, 12, 11, 100, 9} preceded by a settling sample. -/
theorem C7_read_adc_trimmed_average_witness :
    (4 ≤ 5 →
       ∃ hi lo, hi ∈ [10, 12, 11, 100, 9] ∧ lo ∈ [10, 12, 11, 100, 9] ∧
         (∀ x ∈ [10, 12, 11, 100, 9], x ≤ hi) ∧
         (∀ x ∈ [10, 12, 11, 100, 9], lo ≤ x) ∧
         read_adc 5 (0 :: [10, 12, 11, 100, 9]) =
           ([10, 12, 11, 100, 9].sum - hi - lo) / (5 - 2)) ∧
    (5 < 4 → read_adc 5 (0 :: [10, 12, 11, 100, 9]) =
       [10, 12, 11, 100, 9].sum / 5) ∧
    read_adc 5 [0, 10, 12, 11, 100, 9] = 11 :=
  C7_read_adc_trimmed_average 0 [10, 12, 11, 100, 9] 5 rfl (by decide)
    (by decide)

/-- C1: on each wake cycle, `voltage_dependent_state_change` escalates to
    at least `warn_to_shutdown` when the battery voltage is at most the
    shutdown threshold, escalates to at least `warn_state` (OR-ing the
    low-battery cause on the entry into warn) when it is at most the warn
    threshold, and leaves a state that is already at or above the target
    severity unchanged; with thresholds 3200/3400/3900 mV, voltage 3100
    yields a next state in {warn_to_shutdown, shutdown_state} and voltage
    3300 yields warn_state from every state below warn severity. -/
theorem C1_voltage_threshold_escalation (m : Machine) (bat sv wv rv : Nat) :
    (bat ≤ sv →
       stateVal State.warn_to_shutdown ≤
         stateVal (voltage_dependent_state_change m bat sv wv rv).state ∧
       (stateVal State.warn_to_shutdown ≤ stateVal m.state →
          voltage_dependent_state_change m bat sv wv rv = m)) ∧
    (sv < bat → bat ≤ wv →
       stateVal State.warn_state ≤
         stateVal (voltage_dependent_state_change m bat sv wv rv).state ∧
       (stateVal m.state < stateVal State.warn_state →
          (voltage_dependent_state_change m bat sv wv rv).state =
            State.warn_state ∧
          (voltage_dependent_state_change m bat sv wv rv).should_shutdown =
            m.should_shutdown ||| Shutdown_Cause.bat_voltage) ∧
       (stateVal State.warn_state ≤ stateVal m.state →
          voltage_dependent_state_change m bat sv wv rv = m)) ∧
    (bat = 3100 → sv = 3200 → wv = 3400 → rv = 3900 →
       (voltage_dependent_state_change m bat sv wv rv).state =
           State.warn_to_shutdown ∨
         (voltage_dependent_state_change m bat sv wv rv).state =
           State.shutdown_state) ∧
    (bat = 3300 → sv = 3200 → wv = 3400 → rv = 3900 →
       stateVal m.state < stateVal State.warn_state →
       (voltage_dependent_state_change m bat sv wv rv).state =
         State.warn_state) := by
  obtain ⟨st, ss, sec, pr, fs, vx, ev, tmo⟩ := m
  refine ⟨?_, ?_, ?_, ?_⟩
  · intro hb
    simp only [voltage_dependent_state_change, if_pos hb]
    cases st <;> simp [stateVal]
  · intro h1 h2
    have hnb : ¬ bat ≤ sv := by omega
    simp only [voltage_dependent_state_change, if_neg hnb, if_pos h2]
    cases st <;> simp [stateVal]
  · intro hb h1 h2 h3
    subst hb; subst h1; subst h2; subst h3
    simp only [voltage_dependent_state_change,
      if_pos (by norm_num : (3100 : Nat) ≤ 3200)]
    cases st <;> simp [stateVal]
  · intro hb h1 h2 h3 h4
    subst hb; subst h1; subst h2; subst h3
    simp only [voltage_dependent_state_change,
      if_neg (by norm_num : ¬ (3300 : Nat) ≤ 3200),
      if_pos (by norm_num : (3300 : Nat) ≤ 3400)]
    cases st <;> simp_all [stateVal]

/-- C1 witness: from `running_state` with thresholds 3200/3400/3900,
    voltage 3300 escalates to at least warn severity and voltage 3100
    lands in {warn_to_shutdown, shutdown_state}. -/
theorem C1_voltage_threshold_escalation_witness :
    (stateVal State.warn_state ≤
       stateVal (voltage_dependent_state_change
         ⟨State.running_state, 0, 0, 1, 0, 0, 5000, 60⟩
         3300 3200 3400 3900).state) ∧
    ((voltage_dependent_state_change
        ⟨State.running_state, 0, 0, 1, 0, 0, 5000, 60⟩
        3100 3200 3400 3900).state = State.warn_to_shutdown ∨
     (voltage_dependent_state_change
        ⟨State.running_state, 0, 0, 1, 0, 0, 5000, 60⟩
        3100 3200 3400 3900).state = State.shutdown_state) :=
  ⟨((C1_voltage_threshold_escalation
      ⟨State.running_state, 0, 0, 1, 0, 0, 5000, 60⟩
      3300 3200 3400 3900).2.1 (by decide) (by decide)).1,
   (C1_voltage_threshold_escalation
      ⟨State.running_state, 0, 0, 1, 0, 0, 5000, 60⟩
      3100 3200 3400 3900).2.2.1 rfl rfl rfl rfl⟩

/-- C2 counterexample to "the completion of a *Recovering state to Running
    is performed by a subsequent cycle (not the same cycle)": starting the
    cycle in `shutdown_state` at 3950 mV with thresholds 3200/3400/3900,
    `voltage_dependent_state_change` moves to `shutdown_to_running` and
    `act_on_state_change` — still in the same `handle_state` call —
    already completes the move to `running_state`. -/
theorem C2_counterexample_same_cycle_completion :
    (voltage_dependent_state_change
       ⟨State.shutdown_state, 128, 10, 1, 0, 0, 5000, 60⟩
       3950 3200 3400 3900).state = State.shutdown_to_running ∧
    (act_on_state_change (voltage_dependent_state_change
       ⟨State.shutdown_state, 128, 10, 1, 0, 0, 5000, 60⟩
       3950 3200 3400 3900)).1.state = State.running_state ∧
    (act_on_state_change (voltage_dependent_state_change
       ⟨State.shutdown_state, 128, 10, 1, 0, 0, 5000, 60⟩
       3950 3200 3400 3900)).1.state ≠ State.shutdown_to_running := by
  decide

/-- C2 (amended): above the restart threshold the voltage-dependent step
    de-escalates exactly as the spec's table says (Shutdown and
    WarnToShutdown to ShutdownRecovering, Warn to WarnRecovering,
    Uncertain to Running, all else unchanged), but the completion of the
    *Recovering state to Running is performed later in the SAME cycle by
    `act_on_state_change`, after the power-control action for the
    transition (`ups_on` when primed) has been taken and the
    shutdown-cause bitmask has been cleared. -/
theorem C2_deescalation_and_same_cycle_completion
    (m : Machine) (bat sv wv rv : Nat)
    (hmono1 : sv ≤ wv) (hmono2 : wv ≤ rv) (hbat : rv < bat) :
    (voltage_dependent_state_change m bat sv wv rv).state =
      de_escalate_spec m.state ∧
    (voltage_dependent_state_change m bat sv wv rv).should_shutdown =
      m.should_shutdown ∧
    (voltage_dependent_state_change m bat sv wv rv).seconds = m.seconds ∧
    ((m.state = State.shutdown_state ∨ m.state = State.warn_to_shutdown) →
       (act_on_state_change
          (voltage_dependent_state_change m bat sv wv rv)).1.state =
         State.running_state ∧
       (act_on_state_change
          (voltage_dependent_state_change m bat sv wv rv)).1.should_shutdown
         = Shutdown_Cause.none ∧
       (m.primed = 1 →
          (act_on_state_change
             (voltage_dependent_state_change m bat sv wv rv)).2.head? =
            some Action.ups_on)) ∧
    (m.state = State.warn_state →
       (act_on_state_change
          (voltage_dependent_state_change m bat sv wv rv)).1.state =
         State.running_state ∧
       (act_on_state_change
          (voltage_dependent_state_change m bat sv wv rv)).1.should_shutdown
         = Shutdown_Cause.none) := by
  have hnb1 : ¬ bat ≤ sv := by omega
  have hnb2 : ¬ bat ≤ wv := by omega
  have hnb3 : ¬ bat ≤ rv := by omega
  obtain ⟨st, ss, sec, pr, fs, vx, ev, tmo⟩ := m
  simp only [voltage_dependent_state_change, if_neg hnb1, if_neg hnb2,
    if_neg hnb3]
  cases st <;>
    by_cases hvx : vx = 0 <;>
    by_cases hev : ev < MIN_POWER_LEVEL <;>
    by_cases hpr : pr = 1 <;>
    simp_all [act_on_state_change, de_escalate_spec, Shutdown_Cause.none,
      MIN_POWER_LEVEL]
  all_goals
    refine ⟨?_, ?_⟩ <;> (split <;> simp_all)

/-- C2 witness: the amended statement at a concrete recovery — from
    `shutdown_state` at 3950 mV the cycle reaches `running_state` with
    cleared causes, the action list starting with `ups_on`. -/
theorem C2_deescalation_and_same_cycle_completion_witness :
    (voltage_dependent_state_change
       ⟨State.shutdown_state, 128, 10, 1, 0, 0, 5000, 60⟩
       3950 3200 3400 3900).state =
      de_escalate_spec State.shutdown_state ∧
    (act_on_state_change (voltage_dependent_state_change
       ⟨State.shutdown_state, 128, 10, 1, 0, 0, 5000, 60⟩
       3950 3200 3400 3900)).1.state = State.running_state ∧
    (act_on_state_change (voltage_dependent_state_change
       ⟨State.shutdown_state, 128, 10, 1, 0, 0, 5000, 60⟩
       3950 3200 3400 3900)).1.should_shutdown = Shutdown_Cause.none ∧
    (act_on_state_change (voltage_dependent_state_change
       ⟨State.shutdown_state, 128, 10, 1, 0, 0, 5000, 60⟩
       3950 3200 3400 3900)).2.head? = some Action.ups_on := by
  have h := C2_deescalation_and_same_cycle_completion
    ⟨State.shutdown_state, 128, 10, 1, 0, 0, 5000, 60⟩
    3950 3200 3400 3900 (by decide) (by decide) (by decide)
  have h4 := h.2.2.2.1 (Or.inl rfl)
  exact ⟨h.1, h4.1, h4.2.1, h4.2.2 rfl⟩

/-! ## CRC-8 linearity over GF(2) and single-bit error detection -/

lemma and128_ne_zero_iff (a : Nat) : a &&& 128 ≠ 0 ↔ a.testBit 7 = true := by
  rw [show (128 : Nat) = 2 ^ 7 by norm_num, Nat.and_two_pow]
  cases h : a.testBit 7 <;> simp [h]

lemma or_one_eq_xor_one (x : Nat) (hx : x.testBit 0 = false) :
    x ||| 1 = x ^^^ 1 := by
  apply Nat.eq_of_testBit_eq
  intro i
  cases i with
  | zero =>
      have h0 : x % 2 = 0 := by simpa using hx
      simp
      omega
  | succ n =>
      simp only [Nat.testBit_or, Nat.testBit_xor]
      have h1 : (1 : Nat).testBit (n + 1) = false := by
        simp [Nat.testBit_succ]
      simp [h1]

lemma shiftLeft_mod_testBit0 (r : Nat) : ((r <<< 1) % 256).testBit 0 = false := by
  have h : (r <<< 1) % 256 % 2 = 0 := by
    rw [Nat.shiftLeft_eq, pow_one]
    omega
  simp [Nat.testBit_zero, h]

lemma shl_mod_xor (a b : Nat) :
    ((a ^^^ b) <<< 1) % 256 = ((a <<< 1) % 256) ^^^ ((b <<< 1) % 256) := by
  apply Nat.eq_of_testBit_eq
  intro i
  rw [show (256 : Nat) = 2 ^ 8 by norm_num]
  simp only [Nat.testBit_mod_two_pow, Nat.testBit_shiftLeft, Nat.testBit_xor]
  by_cases h8 : i < 8 <;> by_cases h1 : 1 ≤ i <;>
    simp [h8, h1, ge_iff_le]

lemma if_testBit_xor (a b c : Nat) :
    (if (a ^^^ b).testBit 7 then c else 0) =
      (if a.testBit 7 then c else 0) ^^^ (if b.testBit 7 then c else 0) := by
  cases ha : a.testBit 7 <;> cases hb : b.testBit 7 <;>
    simp [Nat.testBit_xor, ha, hb]

lemma xor_mix (a b c d : Nat) :
    (a ^^^ b) ^^^ (c ^^^ d) = (a ^^^ c) ^^^ (b ^^^ d) := by
  apply Nat.eq_of_testBit_eq
  intro i
  simp only [Nat.testBit_xor]
  cases a.testBit i <;> cases b.testBit i <;> cases c.testBit i <;>
    cases d.testBit i <;> rfl

/-- `crc8_bitstep` in closed form: the new register is the shifted register
    with the incoming data bit XORed into the LSB and the polynomial XORed
    in when the old MSB was set. -/
lemma crc8_bitstep_pair (d r : Nat) :
    crc8_bitstep (d, r) =
      ((d <<< 1) % 256,
       (((r <<< 1) % 256) ^^^ (if d.testBit 7 then 1 else 0)) ^^^
         (if r.testBit 7 then CRC8POLY else 0)) := by
  unfold crc8_bitstep
  simp only [and128_ne_zero_iff]
  by_cases hd : d.testBit 7 = true <;> by_cases hr : r.testBit 7 = true <;>
    simp [hd, hr, or_one_eq_xor_one _ (shiftLeft_mod_testBit0 r)]

/-- One CRC bit step is linear over XOR. -/
lemma crc8_bitstep_linear (d1 r1 d2 r2 : Nat) :
    crc8_bitstep (d1 ^^^ d2, r1 ^^^ r2) =
      ((crc8_bitstep (d1, r1)).1 ^^^ (crc8_bitstep (d2, r2)).1,
       (crc8_bitstep (d1, r1)).2 ^^^ (crc8_bitstep (d2, r2)).2) := by
  rw [crc8_bitstep_pair, crc8_bitstep_pair, crc8_bitstep_pair]
  dsimp only
  refine Prod.ext ?_ ?_
  · exact shl_mod_xor d1 d2
  · rw [shl_mod_xor r1 r2, if_testBit_xor d1 d2 1,
      if_testBit_xor r1 r2 CRC8POLY]
    apply Nat.eq_of_testBit_eq
    intro i
    simp only [Nat.testBit_xor]
    simp [Bool.xor_assoc, Bool.xor_comm, Bool.xor_left_comm]

/-- Iterating the CRC bit step preserves linearity over XOR. -/
lemma crc8_bitstep_iterate_linear (n : Nat) :
    ∀ d1 r1 d2 r2 : Nat,
      crc8_bitstep^[n] (d1 ^^^ d2, r1 ^^^ r2) =
        ((crc8_bitstep^[n] (d1, r1)).1 ^^^ (crc8_bitstep^[n] (d2, r2)).1,
         (crc8_bitstep^[n] (d1, r1)).2 ^^^ (crc8_bitstep^[n] (d2, r2)).2) := by
  induction n with
  | zero => intro d1 r1 d2 r2; simp
  | succ k ih =>
      intro d1 r1 d2 r2
      rw [Function.iterate_succ_apply, Function.iterate_succ_apply,
        Function.iterate_succ_apply, crc8_bitstep_linear]
      have := ih (crc8_bitstep (d1, r1)).1 (crc8_bitstep (d1, r1)).2
        (crc8_bitstep (d2, r2)).1 (crc8_bitstep (d2, r2)).2
      simpa using this

/-- `crc8_bytecalc` is linear over XOR in both arguments. -/
lemma crc8_bytecalc_linear (d1 r1 d2 r2 : Nat) :
    crc8_bytecalc (d1 ^^^ d2) (r1 ^^^ r2) =
      crc8_bytecalc d1 r1 ^^^ crc8_bytecalc d2 r2 := by
  unfold crc8_bytecalc
  rw [crc8_bitstep_iterate_linear 8 d1 r1 d2 r2]

/-- The CRC fold over byte-wise XORed messages of equal length is the XOR
    of the individual folds. -/
lemma crc8_fold_linear :
    ∀ (m1 m2 : List Nat) (r1 r2 : Nat), m1.length = m2.length →
      (List.zipWith (fun x y => x ^^^ y) m1 m2).foldl
          (fun reg b => crc8_bytecalc b reg) (r1 ^^^ r2) =
        m1.foldl (fun reg b => crc8_bytecalc b reg) r1 ^^^
          m2.foldl (fun reg b => crc8_bytecalc b reg) r2 := by
  intro m1
  induction m1 with
  | nil =>
      intro m2 r1 r2 h
      cases m2 with
      | nil => simp
      | cons y ys => simp at h
  | cons x xs ih =>
      intro m2 r1 r2 h
      cases m2 with
      | nil => simp at h
      | cons y ys =>
          simp only [List.zipWith_cons_cons, List.foldl_cons]
          rw [crc8_bytecalc_linear x r1 y r2]
          exact ih ys _ _ (by simpa using h)

/-- `crc8_message_calc` is linear over byte-wise XOR for equal lengths. -/
lemma crc8_message_calc_linear (m1 m2 : List Nat)
    (h : m1.length = m2.length) :
    crc8_message_calc (List.zipWith (fun x y => x ^^^ y) m1 m2) =
      crc8_message_calc m1 ^^^ crc8_message_calc m2 := by
  unfold crc8_message_calc
  have hfold := crc8_fold_linear m1 m2 CRC8INIT CRC8INIT h
  rw [show CRC8INIT ^^^ CRC8INIT = CRC8INIT from by simp [CRC8INIT]] at hfold
  rw [hfold]
  have hb := crc8_bytecalc_linear 0
    (m1.foldl (fun reg b => crc8_bytecalc b reg) CRC8INIT) 0
    (m2.foldl (fun reg b => crc8_bytecalc b reg) CRC8INIT)
  simpa using hb

/-- XOR with a nonzero value changes a Nat. -/
lemma xor_ne_of_ne_zero {a e : Nat} (he : e ≠ 0) : a ^^^ e ≠ a := by
  intro h
  apply he
  have h2 : a ^^^ (a ^^^ e) = a ^^^ a := by rw [h]
  rwa [Nat.xor_cancel_left, Nat.xor_self] at h2

lemma frame_ok_three (a b c : Nat) :
    frame_ok [a, b, c] = (crc8_message_calc [a, b] == c) := by
  simp [frame_ok]

lemma frame_ok_four (a b c d : Nat) :
    frame_ok [a, b, c, d] = (crc8_message_calc [a, b, c] == d) := by
  simp [frame_ok]

/-- C3: appending the CRC-8 of a register selector plus 1- or 2-byte
    payload yields a frame that re-verifies, and flipping any single bit
    anywhere in that frame (any byte position, any of the 8 bit positions)
    makes the verification fail.  Detection follows from the XOR-linearity
    of the CRC together with the fact that no single-bit error pattern has
    CRC zero. -/
theorem C3_crc_roundtrip_and_single_bit_detection
    (r : Nat) (payload : List Nat)
    (hlen : payload.length = 1 ∨ payload.length = 2) :
    frame_ok ((r :: payload) ++ [crc8_message_calc (r :: payload)]) =
      true ∧
    (∀ i, i < ((r :: payload) ++
        [crc8_message_calc (r :: payload)]).length →
      ∀ j, j < 8 →
        frame_ok
          (((r :: payload) ++ [crc8_message_calc (r :: payload)]).set i
            ((((r :: payload) ++
                [crc8_message_calc (r :: payload)]).getD i 0) ^^^
              (1 <<< j))) = false) := by
  have hpow : ∀ j : Nat, (1 <<< j : Nat) ≠ 0 := by
    intro j
    rw [Nat.one_shiftLeft]
    exact pow_ne_zero j (by norm_num)
  rcases hlen with h1 | h2
  · obtain ⟨p1, rfl⟩ := List.length_eq_one.1 h1
    simp only [List.cons_append, List.nil_append]
    constructor
    · simp [frame_ok]
    · intro i hi j hj
      simp only [List.length_cons, List.length_nil] at hi
      have hE1 : crc8_message_calc [1 <<< j, 0] ≠ 0 := by
        interval_cases j <;> decide
      have hE2 : crc8_message_calc [0, 1 <<< j] ≠ 0 := by
        interval_cases j <;> decide
      interval_cases i
      · have hlin := crc8_message_calc_linear [r, p1] [1 <<< j, 0] rfl
        simp only [List.zipWith_cons_cons, List.zipWith_nil_right,
          Nat.xor_zero] at hlin
        simp only [List.set_cons_zero, List.getD_cons_zero]
        rw [frame_ok_three, hlin]
        simp only [beq_eq_false_iff_ne, ne_eq]
        exact xor_ne_of_ne_zero hE1
      · have hlin := crc8_message_calc_linear [r, p1] [0, 1 <<< j] rfl
        simp only [List.zipWith_cons_cons, List.zipWith_nil_right,
          Nat.xor_zero] at hlin
        simp only [List.set_cons_succ, List.set_cons_zero,
          List.getD_cons_succ, List.getD_cons_zero]
        rw [frame_ok_three, hlin]
        simp only [beq_eq_false_iff_ne, ne_eq]
        exact xor_ne_of_ne_zero hE2
      · simp only [List.set_cons_succ, List.set_cons_zero,
          List.getD_cons_succ, List.getD_cons_zero]
        rw [frame_ok_three]
        simp only [beq_eq_false_iff_ne, ne_eq]
        intro h
        exact xor_ne_of_ne_zero (hpow j) h.symm
  · obtain ⟨p1, p2, rfl⟩ := List.length_eq_two.1 h2
    simp only [List.cons_append, List.nil_append]
    constructor
    · simp [frame_ok]
    · intro i hi j hj
      simp only [List.length_cons, List.length_nil] at hi
      have hE1 : crc8_message_calc [1 <<< j, 0, 0] ≠ 0 := by
        interval_cases j <;> decide
      have hE2 : crc8_message_calc [0, 1 <<< j, 0] ≠ 0 := by
        interval_cases j <;> decide
      have hE3 : crc8_message_calc [0, 0, 1 <<< j] ≠ 0 := by
        interval_cases j <;> decide
      interval_cases i
      · have hlin := crc8_message_calc_linear [r, p1, p2]
          [1 <<< j, 0, 0] rfl
        simp only [List.zipWith_cons_cons, List.zipWith_nil_right,
          Nat.xor_zero] at hlin
        simp only [List.set_cons_zero, List.getD_cons_zero]
        rw [frame_ok_four, hlin]
        simp only [beq_eq_false_iff_ne, ne_eq]
        exact xor_ne_of_ne_zero hE1
      · have hlin := crc8_message_calc_linear [r, p1, p2]
          [0, 1 <<< j, 0] rfl
        simp only [List.zipWith_cons_cons, List.zipWith_nil_right,
          Nat.xor_zero] at hlin
        simp only [List.set_cons_succ, List.set_cons_zero,
          List.getD_cons_succ, List.getD_cons_zero]
        rw [frame_ok_four, hlin]
        simp only [beq_eq_false_iff_ne, ne_eq]
        exact xor_ne_of_ne_zero hE2
      · have hlin := crc8_message_calc_linear [r, p1, p2]
          [0, 0, 1 <<< j] rfl
        simp only [List.zipWith_cons_cons, List.zipWith_nil_right,
          Nat.xor_zero] at hlin
        simp only [List.set_cons_succ, List.set_cons_zero,
          List.getD_cons_succ, List.getD_cons_zero]
        rw [frame_ok_four, hlin]
        simp only [beq_eq_false_iff_ne, ne_eq]
        exact xor_ne_of_ne_zero hE3
      · simp only [List.set_cons_succ, List.set_cons_zero,
          List.getD_cons_succ, List.getD_cons_zero]
        rw [frame_ok_four]
        simp only [beq_eq_false_iff_ne, ne_eq]
        intro h
        exact xor_ne_of_ne_zero (hpow j) h.symm

/-- C3 witness: the write frame for register 0x23 with payload byte 8
    re-verifies after its CRC is appended, and flipping bit 3 of the
    payload byte makes the verification fail. -/
theorem C3_crc_roundtrip_and_single_bit_detection_witness :
    frame_ok ((35 :: [8]) ++ [crc8_message_calc (35 :: [8])]) = true ∧
    frame_ok (((35 :: [8]) ++ [crc8_message_calc (35 :: [8])]).set 1
      ((((35 :: [8]) ++ [crc8_message_calc (35 :: [8])]).getD 1 0) ^^^
        (1 <<< 3))) = false :=
  ⟨(C3_crc_roundtrip_and_single_bit_detection 35 [8] (Or.inl rfl)).1,
   (C3_crc_roundtrip_and_single_bit_detection 35 [8] (Or.inl rfl)).2
     1 (by decide) 3 (by decide)⟩

end ATTinyDaemon
